import Mathlib

/-!
Verification of the pressure-observer client contract of
`ts-pressure-observer` against its specification.

The repository ships the type declarations of the `PressureObserver`
class (`src/index.ts`, duplicated in `src/serve.ts`) together with an
`example()` consumer (`src/index.ts` and the unnamed module).  The
observer's behaviour itself is host code that is only *declared* in the
repository, so the behavioural model below is built from the spec's
words; the `example()` code is embedded directly from the source.
-/

/-- `PressureRecordSource` from `src/index.ts`: `"thermals" | "cpu"`. -/
inductive PressureRecordSource where
  | thermals
  | cpu
  deriving DecidableEq

/-- `PressureRecordState` from `src/index.ts`:
`"nominal" | "fair" | "serious" | "critical"`. -/
inductive PressureRecordState where
  | nominal
  | fair
  | serious
  | critical
  deriving DecidableEq

/-- `PressureRecord` from `src/index.ts`: `source`, `state` and a
`time` stamp (modelled as natural-number milliseconds). -/
structure PressureRecord where
  source : PressureRecordSource
  state : PressureRecordState
  time : Nat
  deriving DecidableEq

/-- Modelled from the spec: the observer implementation is absent from
the repository (only a `declare class` exists), so the
PressureObservationClient state of spec section 3 is modelled here: the
per-source subscriptions (`subs`, at most one entry per source, holding
the requested `sampleInterval`) and the shared `PendingBuffer`
(`pending`, insertion order preserved). -/
structure ObserverState where
  subs : List (PressureRecordSource × Nat)
  pending : List PressureRecord
  deriving DecidableEq

/-- A freshly constructed client: no subscriptions, empty buffer. -/
def ObserverState.fresh : ObserverState := ⟨[], []⟩

/-- Whether a subscription for `src` is active. -/
def ObserverState.hasSub (s : ObserverState) (src : PressureRecordSource) : Bool :=
  s.subs.any (fun p => p.1 == src)

/-- Modelled from the spec: `observe` on success "registers (or
replaces) a subscription for `source` with the requested
`sampleInterval`" without resetting the PendingBuffer. -/
def ObserverState.addSub (s : ObserverState) (src : PressureRecordSource)
    (interval : Nat) : ObserverState :=
  { s with subs := (src, interval) :: s.subs.filter (fun p => p.1 != src) }

/-- Modelled from the spec: `unobserve(source)` "removes the
subscription for `source` if present; no-op otherwise", leaving the
PendingBuffer untouched. -/
def ObserverState.unobserve (s : ObserverState) (src : PressureRecordSource) :
    ObserverState :=
  { s with subs := s.subs.filter (fun p => p.1 != src) }

/-- Modelled from the spec: `disconnect()` removes every subscription. -/
def ObserverState.disconnect (s : ObserverState) : ObserverState :=
  { s with subs := [] }

/-- Modelled from the spec: `takeRecords()` "atomically empties the
PendingBuffer and returns its prior contents in insertion order". -/
def ObserverState.takeRecords (s : ObserverState) :
    List PressureRecord × ObserverState :=
  (s.pending, { s with pending := [] })

/-- Modelled from the spec: a record arriving from the upstream
collaborator for an active subscription is appended to the
PendingBuffer; records for sources without an active subscription are
not recorded. -/
def ObserverState.accept (s : ObserverState) (r : PressureRecord) : ObserverState :=
  if s.hasSub r.source then { s with pending := s.pending ++ [r] } else s

/-- The environment-visible failure kinds of `observe`, from
`src/index.ts` (`NotAllowedError`, `NotSupportedError`). -/
inductive ObserveFailure where
  | notAllowedError
  | notSupportedError
  deriving DecidableEq

/-- Modelled from the spec: the host capability environment — the
permission/policy gate and the list of supported sources. -/
structure HostEnv where
  allowed : Bool
  supported : List PressureRecordSource
  deriving DecidableEq

/-- Modelled from the spec: `observe(source, options)` resolves through
its asynchronous result channel: `NotAllowedError` when the policy gate
denies observation, `NotSupportedError` when `source` is not
implementable on this host, otherwise it registers (or replaces) the
subscription.  Totality of this function models the requirement that
`observe` never throws synchronously. -/
def observeCall (env : HostEnv) (s : ObserverState) (src : PressureRecordSource)
    (interval : Nat) : ObserverState × Except ObserveFailure Unit :=
  if env.allowed = false then (s, Except.error ObserveFailure.notAllowedError)
  else if env.supported.contains src = false then
    (s, Except.error ObserveFailure.notSupportedError)
  else (s.addSub src interval, Except.ok ())

/-- Events driving the client, per spec sections 4.1 and 5: an upstream
transition, the scheduled delivery task running, `takeRecords`, and the
lifecycle calls. -/
inductive ClientEvent where
  | emit (r : PressureRecord)
  | flush
  | take
  | subscribe (src : PressureRecordSource) (interval : Nat)
  | unsubscribe (src : PressureRecordSource)
  | disconnectAll
  deriving DecidableEq

/-- Modelled from the spec: the full run state of a client together
with its observable history.  `delivered` records one entry per
callback invocation (the batch handed to the callback), `taken` one
entry per `takeRecords` call, `outLog` is every drained record in drain
order, `accepted` every record accepted into the buffer in arrival
order. -/
structure RunState where
  client : ObserverState
  delivered : List (List PressureRecord)
  taken : List (List PressureRecord)
  outLog : List PressureRecord
  accepted : List PressureRecord
  deriving DecidableEq

/-- The initial run state: fresh client, no history. -/
def RunState.init : RunState := ⟨ObserverState.fresh, [], [], [], []⟩

/-- Modelled from the spec: one step of the client.  A delivery drains
the entire current PendingBuffer and invokes the callback exactly once
with that batch, and is skipped when the buffer is empty (no empty
batches); `takeRecords` drains without invoking the callback. -/
def stepEvent (s : RunState) : ClientEvent → RunState
  | ClientEvent.emit r =>
      if s.client.hasSub r.source then
        { s with
            client := { s.client with pending := s.client.pending ++ [r] },
            accepted := s.accepted ++ [r] }
      else s
  | ClientEvent.flush =>
      if s.client.pending = [] then s
      else
        { s with
            client := { s.client with pending := [] },
            delivered := s.delivered ++ [s.client.pending],
            outLog := s.outLog ++ s.client.pending }
  | ClientEvent.take =>
      { s with
          client := { s.client with pending := [] },
          taken := s.taken ++ [s.client.pending],
          outLog := s.outLog ++ s.client.pending }
  | ClientEvent.subscribe src interval =>
      { s with client := s.client.addSub src interval }
  | ClientEvent.unsubscribe src =>
      { s with client := s.client.unobserve src }
  | ClientEvent.disconnectAll =>
      { s with client := s.client.disconnect }

/-- Run a trace of events from the initial state. -/
def runTrace (t : List ClientEvent) : RunState :=
  t.foldl stepEvent RunState.init

/-- Modelled from the spec: the upstream collaborator's dedup state,
the last reported `state` per source. -/
structure UpstreamState where
  lastThermals : Option PressureRecordState
  lastCpu : Option PressureRecordState
  deriving DecidableEq

/-- The upstream collaborator has reported nothing yet. -/
def UpstreamState.start : UpstreamState := ⟨none, none⟩

/-- The last reported state for a source. -/
def UpstreamState.lastFor (u : UpstreamState) : PressureRecordSource →
    Option PressureRecordState
  | PressureRecordSource.thermals => u.lastThermals
  | PressureRecordSource.cpu => u.lastCpu

/-- Record a newly reported state for a source. -/
def UpstreamState.setLast (u : UpstreamState) (src : PressureRecordSource)
    (st : PressureRecordState) : UpstreamState :=
  match src with
  | PressureRecordSource.thermals => { u with lastThermals := some st }
  | PressureRecordSource.cpu => { u with lastCpu := some st }

/-- Modelled from the spec: the upstream collaborator "emits
`(source, state, time)` transition events only when `state` changes
from the previously reported value for that `source`" — repeated
identical states are suppressed before they reach the client. -/
def dedup (u : UpstreamState) : List PressureRecord → List PressureRecord
  | [] => []
  | r :: rest =>
      if u.lastFor r.source = some r.state then dedup u rest
      else r :: dedup (u.setLast r.source r.state) rest

/-! ## Embedding of the `example()` consumer (`src/index.ts`, unnamed module) -/

/-- Opaque identity of a thrown JavaScript value, distinguishing where
it was raised in the example code. -/
inductive JsError where
  | fromCtor
  | fromObserveCall
  | typeError
  deriving DecidableEq

/-- `Logs` from the example `callback` in `src/index.ts`: the
human-readable label per `PressureRecordState`. -/
def Logs : PressureRecordState → String
  | PressureRecordState.nominal => "⚪ CPU Nominal"
  | PressureRecordState.fair => "🟢 CPU Fair"
  | PressureRecordState.serious => "🟡 CPU Serious"
  | PressureRecordState.critical => "🔴 CPU Critical"

/-- The message the example `callback` builds for a record, from
`src/index.ts`: the template string with `Logs` text and the
timestamp. -/
def callbackMsg (r : PressureRecord) : String :=
  Logs r.state ++ " @ " ++ toString r.time ++ "ms"

/-- The example `callback` from `src/index.ts`: `changes.at(-1)!`
dereferences the last element of the batch (a `TypeError` on an empty
batch, since `at(-1)` is then `undefined`), and the message is logged
only when that record's source is `"cpu"`.  The result is the logged
message, `none` when nothing was logged. -/
def exampleCallback (changes : List PressureRecord) :
    Except JsError (Option String) :=
  match changes.getLast? with
  | none => Except.error JsError.typeError
  | some current =>
      if current.source = PressureRecordSource.cpu then
        Except.ok (some (callbackMsg current))
      else Except.ok none

/-- The runtime environment the example's `observe` probes: whether the
global `PressureObserver` exists, whether the context is secure, and
how the host behaves when the example constructs and subscribes an
observer. -/
structure ExampleEnv where
  pressureObserverDefined : Bool
  isSecureContext : Bool
  ctorThrows : Bool
  observeThrowsSync : Bool
  observeRejects : Bool
  deriving DecidableEq

/-- `new PressureObserver(callback)` in the example: yields a fresh
client, or throws if the host constructor fails. -/
def newPressureObserver (env : ExampleEnv) : Except JsError ObserverState :=
  if env.ctorThrows then Except.error JsError.fromCtor
  else Except.ok ObserverState.fresh

/-- How the promise returned by `observer.observe("cpu", options)`
settles. -/
inductive PromiseOutcome where
  | resolved
  | rejected
  deriving DecidableEq

/-- `observer.observe("cpu", options)` in the example: the synchronous
part may throw; otherwise it hands back a promise that later resolves
or rejects. -/
def observeCpu (env : ExampleEnv) : Except JsError PromiseOutcome :=
  if env.observeThrowsSync then Except.error JsError.fromObserveCall
  else Except.ok (if env.observeRejects then PromiseOutcome.rejected
                  else PromiseOutcome.resolved)

/-- The observable outcome of one run of the example's `observe`
function: the value it returns (`none` models `undefined`), whether the
`new PressureObserver` expression was evaluated, whether the `catch`
block traced, and whether the `.catch` rejection handler traced. -/
structure ExampleOutcome where
  result : Option ObserverState
  ctorCalled : Bool
  tracedSync : Bool
  tracedAsync : Bool
  deriving DecidableEq

/-- The example's inner `observe` function from `src/index.ts` and the
unnamed module, embedded step by step: the up-front guard returns
`undefined` when `PressureObserver` is undefined or the context is not
secure; the `try` block constructs the observer, calls `observe("cpu",
options)` with a `.catch` handler that only traces, and returns the
observer; the `catch` block traces and falls through to `return
undefined`.  An `Except.error` result would model an exception
escaping `observe` (and hence `example()`'s promise rejecting). -/
def exampleObserve (env : ExampleEnv) : Except JsError ExampleOutcome :=
  if !env.pressureObserverDefined || !env.isSecureContext then
    Except.ok ⟨none, false, false, false⟩
  else
    match newPressureObserver env with
    | Except.error _ => Except.ok ⟨none, true, true, false⟩
    | Except.ok obs =>
        match observeCpu env with
        | Except.error _ => Except.ok ⟨none, true, true, false⟩
        | Except.ok p =>
            Except.ok ⟨some obs, true, false,
              decide (p = PromiseOutcome.rejected)⟩

/-- `example()` from `src/index.ts`: an async function whose body just
runs `observe()`; its promise rejects exactly when the body throws. -/
def exampleRun (env : ExampleEnv) : Except JsError ExampleOutcome :=
  exampleObserve env

/-- The upstream emissions of the spec's delivery scenario:
`(cpu, fair, 100)`, `(cpu, fair, 1100)` and `(cpu, serious, 2100)`. -/
def scenarioUpstream : List PressureRecord :=
  [⟨PressureRecordSource.cpu, PressureRecordState.fair, 100⟩,
   ⟨PressureRecordSource.cpu, PressureRecordState.fair, 1100⟩,
   ⟨PressureRecordSource.cpu, PressureRecordState.serious, 2100⟩]

/-- The spec's delivery scenario as a client trace: observe `cpu` with
`sampleInterval = 1000`, the upstream emissions after dedup, then the
scheduled delivery task. -/
def scenarioTrace : List ClientEvent :=
  ClientEvent.subscribe PressureRecordSource.cpu 1000 ::
    ((dedup UpstreamState.start scenarioUpstream).map ClientEvent.emit ++
      [ClientEvent.flush])

/-! ## Invariants of the client run -/

/-- The run invariant: the drained log followed by the pending buffer
is exactly the accepted arrival sequence; the drained log holds, with
multiplicity, exactly the records of the delivered batches and the
`takeRecords` results; and every delivered batch is a nonempty
contiguous segment of the drained log. -/
def RunInv (s : RunState) : Prop :=
  s.outLog ++ s.client.pending = s.accepted ∧
  (∀ r : PressureRecord,
    (s.delivered.flatten ++ s.taken.flatten).count r = s.outLog.count r) ∧
  (∀ b ∈ s.delivered, b ≠ [] ∧ b <:+: s.outLog)

theorem inv_init : RunInv RunState.init := by
  refine ⟨rfl, ?_, ?_⟩ <;> simp [RunState.init]

theorem inv_step (s : RunState) (e : ClientEvent) (h : RunInv s) :
    RunInv (stepEvent s e) := by
  obtain ⟨h1, h2, h3⟩ := h
  cases e with
  | emit r =>
      by_cases hs : s.client.hasSub r.source
      · simp only [stepEvent, hs, if_true]
        exact ⟨by rw [← List.append_assoc, h1], h2, h3⟩
      · simp only [stepEvent, hs]
        exact ⟨h1, h2, h3⟩
  | flush =>
      by_cases hp : s.client.pending = []
      · simp only [stepEvent, hp, if_true]
        exact ⟨h1, h2, h3⟩
      · simp only [stepEvent, hp, if_false]
        refine ⟨by simpa using h1, ?_, ?_⟩
        · intro r
          have := h2 r
          simp only [List.flatten_append, List.flatten_cons, List.flatten_nil,
            List.count_append, List.append_nil, List.count_nil] at this ⊢
          omega
        · intro b hb
          rcases (by simpa using hb : b ∈ s.delivered ∨ b = s.client.pending)
            with hb' | hb'
          · obtain ⟨hne, hinf⟩ := h3 b hb'
            exact ⟨hne, hinf.trans (List.prefix_append _ _).isInfix⟩
          · subst hb'
            exact ⟨hp, (List.suffix_append _ _).isInfix⟩
  | take =>
      simp only [stepEvent]
      refine ⟨by simpa using h1, ?_, ?_⟩
      · intro r
        have := h2 r
        simp only [List.flatten_append, List.flatten_cons, List.flatten_nil,
          List.count_append, List.append_nil, List.count_nil] at this ⊢
        omega
      · intro b hb
        obtain ⟨hne, hinf⟩ := h3 b hb
        exact ⟨hne, hinf.trans (List.prefix_append _ _).isInfix⟩
  | subscribe src interval =>
      exact ⟨h1, h2, h3⟩
  | unsubscribe src =>
      exact ⟨h1, h2, h3⟩
  | disconnectAll =>
      exact ⟨h1, h2, h3⟩

theorem inv_foldl (t : List ClientEvent) (s : RunState) (h : RunInv s) :
    RunInv (t.foldl stepEvent s) := by
  induction t generalizing s with
  | nil => exact h
  | cons e rest ih => exact ih _ (inv_step s e h)

theorem inv_runTrace (t : List ClientEvent) : RunInv (runTrace t) :=
  inv_foldl t RunState.init inv_init

/-! ## Subscription-list lemmas -/

theorem any_eq_filter_ne (l : List (PressureRecordSource × Nat))
    (src : PressureRecordSource) :
    (l.filter (fun p => p.1 != src)).any (fun p => p.1 == src) = false := by
  induction l with
  | nil => rfl
  | cons p rest ih =>
      by_cases h : p.1 = src
      · simp only [List.filter_cons, h, bne_self_eq_false, Bool.false_eq_true,
          if_false]
        exact ih
      · simp [List.filter_cons, h, List.any_cons, ih]

theorem filter_ne_idem (l : List (PressureRecordSource × Nat))
    (src : PressureRecordSource) :
    (l.filter (fun p => p.1 != src)).filter (fun p => p.1 != src) =
      l.filter (fun p => p.1 != src) := by
  induction l with
  | nil => rfl
  | cons p rest ih =>
      by_cases h : p.1 = src
      · simp only [List.filter_cons, h, bne_self_eq_false, Bool.false_eq_true,
          if_false]
        exact ih
      · simp [List.filter_cons, h, ih]

theorem any_filter_ne_of_ne (l : List (PressureRecordSource × Nat))
    (src src' : PressureRecordSource) (h : src ≠ src') :
    (l.filter (fun p => p.1 != src)).any (fun p => p.1 == src') =
      l.any (fun p => p.1 == src') := by
  induction l with
  | nil => rfl
  | cons p rest ih =>
      by_cases hp : p.1 = src
      · have hb : (p.1 != src) = false := by simp [hp]
        have hb' : (p.1 == src') = false := by
          rw [hp]
          exact beq_eq_false_iff_ne.mpr h
        simp only [List.filter_cons, hb, Bool.false_eq_true, if_false,
          List.any_cons, hb', Bool.false_or, ih]
      · simp [List.filter_cons, hp, List.any_cons, ih]

theorem filter_ne_self_of_not_any (l : List (PressureRecordSource × Nat))
    (src : PressureRecordSource) (h : l.any (fun p => p.1 == src) = false) :
    l.filter (fun p => p.1 != src) = l := by
  induction l with
  | nil => rfl
  | cons p rest ih =>
      simp only [List.any_cons, Bool.or_eq_false_iff] at h
      have hne : p.1 ≠ src := by
        intro hc
        rw [hc] at h
        simp at h
      simp [List.filter_cons, hne, ih h.2]

theorem filter_ne_both_sources_nil (l : List (PressureRecordSource × Nat)) :
    (l.filter (fun p => p.1 != PressureRecordSource.cpu)).filter
      (fun p => p.1 != PressureRecordSource.thermals) = [] := by
  induction l with
  | nil => rfl
  | cons p rest ih =>
      obtain ⟨src, i⟩ := p
      cases src <;> simp [List.filter_cons, ih]

/-! ## Claim theorems -/

/-- C1: on the spec-modelled client, `unobserve(source)` removes the
subscription for `source` (no longer active afterwards), leaves the
PendingBuffer untouched so already-buffered records are still delivered
on the next flush, preserves the other source's subscription, and a
repeated `unobserve` — now on a non-subscribed source — changes
nothing.  The claim's signature part fails on the code: the declared
TypeScript method is `unobserve: () => void`, taking no source
argument. -/
theorem C1_unobserve_behaviour (s : ObserverState) (src : PressureRecordSource)
    (rs : RunState) :
    (s.unobserve src).pending = s.pending ∧
    (s.unobserve src).hasSub src = false ∧
    (s.unobserve src).unobserve src = s.unobserve src ∧
    (s.unobserve PressureRecordSource.cpu).hasSub PressureRecordSource.thermals =
      s.hasSub PressureRecordSource.thermals ∧
    (s.unobserve PressureRecordSource.thermals).hasSub PressureRecordSource.cpu =
      s.hasSub PressureRecordSource.cpu ∧
    (stepEvent rs (ClientEvent.unsubscribe src)).client.pending =
      rs.client.pending ∧
    (stepEvent (stepEvent rs (ClientEvent.unsubscribe src))
        ClientEvent.flush).delivered =
      (if rs.client.pending = [] then rs.delivered
       else rs.delivered ++ [rs.client.pending]) := by
  refine ⟨rfl, ?_, ?_, ?_, ?_, rfl, ?_⟩
  · exact any_eq_filter_ne s.subs src
  · simp [ObserverState.unobserve, filter_ne_idem]
  · exact any_filter_ne_of_ne s.subs PressureRecordSource.cpu
      PressureRecordSource.thermals (by decide)
  · exact any_filter_ne_of_ne s.subs PressureRecordSource.thermals
      PressureRecordSource.cpu (by decide)
  · simp only [stepEvent, ObserverState.unobserve]
    split <;> simp_all

/-- C2: `observe` reports success and both failure kinds through its
one asynchronous result channel (the modelled call is a total function,
so it cannot throw synchronously), the two failure kinds are distinct
values, a failing call creates no subscription, and after a
`NotSupportedError` a retry with a supported source on the same client
succeeds. -/
theorem C2_observe_async_failures (env : HostEnv) (s : ObserverState)
    (src : PressureRecordSource) (interval : Nat) :
    ((observeCall env s src interval).2 = Except.ok () ∨
      (observeCall env s src interval).2 =
        Except.error ObserveFailure.notAllowedError ∨
      (observeCall env s src interval).2 =
        Except.error ObserveFailure.notSupportedError) ∧
    ObserveFailure.notAllowedError ≠ ObserveFailure.notSupportedError ∧
    (∀ e, (observeCall env s src interval).2 = Except.error e →
      (observeCall env s src interval).1 = s) ∧
    ((observeCall env s src interval).2 =
        Except.error ObserveFailure.notSupportedError →
      ∀ src' interval', env.supported.contains src' = true →
        (observeCall env s src' interval').2 = Except.ok ()) := by
  by_cases ha : env.allowed = false
  · refine ⟨Or.inr (Or.inl ?_), by decide, ?_, ?_⟩
    · simp [observeCall, ha]
    · intro e _
      simp [observeCall, ha]
    · intro hc
      simp [observeCall, ha] at hc
  · by_cases hsup : env.supported.contains src = false
    · have hmem : src ∉ env.supported := by simpa using hsup
      refine ⟨Or.inr (Or.inr ?_), by decide, ?_, ?_⟩
      · simp [observeCall, ha, hmem]
      · intro e _
        simp [observeCall, ha, hmem]
      · intro _ src' interval' hc'
        have hmem' : src' ∈ env.supported := by simpa using hc'
        simp [observeCall, ha, hmem']
    · have hmem : src ∈ env.supported := by
        have := Bool.of_not_eq_false hsup
        simpa using this
      refine ⟨Or.inl ?_, by decide, ?_, ?_⟩
      · simp [observeCall, ha, hmem]
      · intro e he
        simp [observeCall, ha, hmem] at he
      · intro hc
        simp [observeCall, ha, hmem] at hc

/-- C2 witness: on a host that permits observation and supports only
`cpu`, `observe("thermals")` fails with `NotSupportedError` and the
retry `observe("cpu")` on the same client succeeds. -/
theorem C2_observe_async_failures_witness :
    (observeCall ⟨true, [PressureRecordSource.cpu]⟩ ObserverState.fresh
      PressureRecordSource.cpu 1000).2 = Except.ok () :=
  (C2_observe_async_failures ⟨true, [PressureRecordSource.cpu]⟩
      ObserverState.fresh PressureRecordSource.thermals 0).2.2.2
    rfl PressureRecordSource.cpu 1000 rfl

/-- C3: when the `PressureObserver` global is undefined or the context
is not secure, the example's observe-initiating code returns
`undefined` up front: it never evaluates `new PressureObserver`, traces
nothing, and no exception is raised. -/
theorem C3_absent_environment_short_circuits (env : ExampleEnv)
    (h : env.pressureObserverDefined = false ∨ env.isSecureContext = false) :
    exampleRun env = Except.ok ⟨none, false, false, false⟩ := by
  rcases h with h | h <;> simp [exampleRun, exampleObserve, h]

/-- C3 witness: with the `PressureObserver` global undefined, the
example returns the "no observer" outcome. -/
theorem C3_absent_environment_witness :
    exampleRun ⟨false, true, false, false, false⟩ =
      Except.ok ⟨none, false, false, false⟩ :=
  C3_absent_environment_short_circuits ⟨false, true, false, false, false⟩
    (Or.inl rfl)

/-- C4: after the PendingBuffer has been drained, every record accepted
while its subscription was active appears, with multiplicity, exactly
as often in the delivered batches together with the `takeRecords`
results as it arrived — in exactly one of the two, never both, never
neither. -/
theorem C4_no_loss_no_duplication (t : List ClientEvent)
    (h : (runTrace t).client.pending = []) (r : PressureRecord) :
    ((runTrace t).delivered.flatten ++ (runTrace t).taken.flatten).count r =
      (runTrace t).accepted.count r := by
  obtain ⟨h1, h2, _⟩ := inv_runTrace t
  rw [h2 r]
  rw [h, List.append_nil] at h1
  rw [h1]

/-- C4 witness: in the spec scenario trace the accepted `cpu` records
are accounted for exactly once after the final flush. -/
theorem C4_no_loss_no_duplication_witness :
    (runTrace scenarioTrace).client.pending = [] ∧
    ((runTrace scenarioTrace).delivered.flatten ++
        (runTrace scenarioTrace).taken.flatten).count
      ⟨PressureRecordSource.cpu, PressureRecordState.fair, 100⟩ =
      (runTrace scenarioTrace).accepted.count
        ⟨PressureRecordSource.cpu, PressureRecordState.fair, 100⟩ :=
  ⟨by decide, C4_no_loss_no_duplication scenarioTrace (by decide)
    ⟨PressureRecordSource.cpu, PressureRecordState.fair, 100⟩⟩

/-- C5: a scheduled delivery drains the whole current PendingBuffer
into exactly one callback invocation and leaves the buffer empty, an
empty buffer produces no invocation (no empty batches), `takeRecords`
history is untouched, and the spec scenario produces a single
invocation with batch `[(cpu, fair, 100), (cpu, serious, 2100)]`. -/
theorem C5_delivery_drains_whole_buffer (s : RunState) :
    ((stepEvent s ClientEvent.flush).delivered =
      if s.client.pending = [] then s.delivered
      else s.delivered ++ [s.client.pending]) ∧
    (stepEvent s ClientEvent.flush).client.pending = [] ∧
    (stepEvent s ClientEvent.flush).taken = s.taken ∧
    (runTrace scenarioTrace).delivered =
      [[⟨PressureRecordSource.cpu, PressureRecordState.fair, 100⟩,
        ⟨PressureRecordSource.cpu, PressureRecordState.serious, 2100⟩]] := by
  refine ⟨?_, ?_, ?_, by decide⟩ <;>
    · simp only [stepEvent]
      split <;> simp_all

/-- C6: every delivered batch is nonempty and a contiguous segment of
the accepted arrival sequence, so cross-source interleaving and arrival
order are intact and "most recent record" is well-defined as the
batch's last element. -/
theorem C6_batches_preserve_arrival_order (t : List ClientEvent)
    (b : List PressureRecord) (h : b ∈ (runTrace t).delivered) :
    b ≠ [] ∧ b <:+: (runTrace t).accepted := by
  obtain ⟨h1, _, h3⟩ := inv_runTrace t
  obtain ⟨hne, hinf⟩ := h3 b h
  exact ⟨hne, hinf.trans (List.IsPrefix.isInfix ⟨_, h1⟩)⟩

/-- C6 witness: the batch delivered in the spec scenario is a nonempty
contiguous segment of the accepted arrival sequence. -/
theorem C6_batches_preserve_arrival_order_witness :
    ([⟨PressureRecordSource.cpu, PressureRecordState.fair, 100⟩,
      ⟨PressureRecordSource.cpu, PressureRecordState.serious, 2100⟩] :
        List PressureRecord) ≠ [] ∧
    ([⟨PressureRecordSource.cpu, PressureRecordState.fair, 100⟩,
      ⟨PressureRecordSource.cpu, PressureRecordState.serious, 2100⟩] :
        List PressureRecord) <:+: (runTrace scenarioTrace).accepted :=
  C6_batches_preserve_arrival_order scenarioTrace
    [⟨PressureRecordSource.cpu, PressureRecordState.fair, 100⟩,
     ⟨PressureRecordSource.cpu, PressureRecordState.serious, 2100⟩]
    (by decide)

/-- C7: `takeRecords` returns the PendingBuffer's prior contents in
insertion order and atomically empties it, leaves the subscriptions
untouched, never invokes the callback, and on an empty buffer returns
the empty sequence. -/
theorem C7_takeRecords_drains_without_callback (s : ObserverState)
    (rs : RunState) :
    s.takeRecords.1 = s.pending ∧
    s.takeRecords.2.pending = [] ∧
    s.takeRecords.2.subs = s.subs ∧
    ObserverState.fresh.takeRecords.1 = [] ∧
    (stepEvent rs ClientEvent.take).delivered = rs.delivered ∧
    (stepEvent rs ClientEvent.take).taken = rs.taken ++ [rs.client.pending] ∧
    (stepEvent rs ClientEvent.take).client.pending = [] :=
  ⟨rfl, rfl, rfl, rfl, rfl, rfl, rfl⟩

/-- C8: `disconnect` equals `unobserve` applied to every source
(`cpu` then `thermals`), `disconnect` is idempotent, a repeated
`unobserve` changes nothing, and `unobserve` on a source with no active
subscription is the identity. -/
theorem C8_disconnect_unobserve_all (s : ObserverState) :
    s.disconnect = (s.unobserve PressureRecordSource.cpu).unobserve
      PressureRecordSource.thermals ∧
    s.disconnect.disconnect = s.disconnect ∧
    (∀ src, (s.unobserve src).unobserve src = s.unobserve src) ∧
    (∀ src, s.hasSub src = false → s.unobserve src = s) := by
  refine ⟨?_, rfl, ?_, ?_⟩
  · simp [ObserverState.disconnect, ObserverState.unobserve,
      filter_ne_both_sources_nil s.subs]
  · intro src
    simp [ObserverState.unobserve, filter_ne_idem]
  · intro src h
    simp [ObserverState.unobserve, filter_ne_self_of_not_any s.subs src h]

/-- C8 witness: `unobserve("cpu")` on a client subscribed only to
`thermals` changes nothing. -/
theorem C8_disconnect_unobserve_all_witness :
    (⟨[(PressureRecordSource.thermals, 5)], []⟩ : ObserverState).unobserve
        PressureRecordSource.cpu =
      ⟨[(PressureRecordSource.thermals, 5)], []⟩ :=
  (C8_disconnect_unobserve_all
      ⟨[(PressureRecordSource.thermals, 5)], []⟩).2.2.2
    PressureRecordSource.cpu (by decide)

/-- C9: `example()` never throws and its promise always resolves: to
`undefined` when the try block throws (the error is caught and only
traced), and to the already-constructed observer when the `observe`
promise rejects, the rejection being absorbed by the attached `.catch`
handler which only traces. -/
theorem C9_example_resolves (env : ExampleEnv) :
    (∃ o : ExampleOutcome, exampleRun env = Except.ok o) ∧
    (env.pressureObserverDefined = true → env.isSecureContext = true →
      env.ctorThrows = true →
      exampleRun env = Except.ok ⟨none, true, true, false⟩) ∧
    (env.pressureObserverDefined = true → env.isSecureContext = true →
      env.ctorThrows = false → env.observeThrowsSync = true →
      exampleRun env = Except.ok ⟨none, true, true, false⟩) ∧
    (env.pressureObserverDefined = true → env.isSecureContext = true →
      env.ctorThrows = false → env.observeThrowsSync = false →
      env.observeRejects = true →
      exampleRun env =
        Except.ok ⟨some ObserverState.fresh, true, false, true⟩) := by
  refine ⟨?_, ?_, ?_, ?_⟩
  · obtain ⟨a, b, c, d, e⟩ := env
    cases a <;> cases b <;> cases c <;> cases d <;> cases e <;> exact ⟨_, rfl⟩
  · intro h1 h2 h3
    simp [exampleRun, exampleObserve, newPressureObserver, h1, h2, h3]
  · intro h1 h2 h3 h4
    simp [exampleRun, exampleObserve, newPressureObserver, observeCpu,
      h1, h2, h3, h4]
  · intro h1 h2 h3 h4 h5
    simp [exampleRun, exampleObserve, newPressureObserver, observeCpu,
      h1, h2, h3, h4, h5]

/-- C9 witness: in a capable secure environment whose `observe` promise
rejects, `example()` still resolves to the constructed observer and the
rejection is only traced. -/
theorem C9_example_resolves_witness :
    exampleRun ⟨true, true, false, false, true⟩ =
      Except.ok ⟨some ObserverState.fresh, true, false, true⟩ :=
  (C9_example_resolves ⟨true, true, false, false, true⟩).2.2.2
    rfl rfl rfl rfl rfl

/-- C10: the example callback raises a `TypeError` on an empty batch
(`changes.at(-1)!` dereferences `undefined`); on any nonempty batch it
inspects only the final record, produces the log message exactly when
that record's source is `cpu`, and ignores every earlier record of the
batch. -/
theorem C10_callback_reads_last_record (l : List PressureRecord)
    (r : PressureRecord) :
    exampleCallback (l ++ [r]) =
      Except.ok (if r.source = PressureRecordSource.cpu
        then some (callbackMsg r) else none) ∧
    exampleCallback [] = Except.error JsError.typeError := by
  refine ⟨?_, rfl⟩
  simp only [exampleCallback, List.getLast?_concat]
  split <;> rfl
